import Mathlib

/-!
Shallow embedding of the xlink channel-multiplexing core
(`drivers/misc/xlink-core/xlink-multiplexer.c` and the request-size checks of
`drivers/misc/xlink-core/xlink-core.c`).

Modelling conventions:
* Byte sizes and counters are `Nat` (the C uses `uint32_t`; all claims stay far
  below 2^32 so wraparound never matters for the compared quantities).
  `rx_fill_level` is `int32_t` in the C and is modelled as `Int` so that the
  "never below zero" part of the fill-level invariant is a real statement.
* Constants whose values live in headers outside the provided sources
  (`XLINK_PACKET_QUEUE_CAPACITY`, the three maximum payload sizes) are taken as
  explicit parameters of the functions that read them; the claims hold for
  every value of these parameters.
* Error codes mirror `enum xlink_error`.  The sources force
  `X_LINK_SUCCESS = 0` (they initialise `int rc = 0;` and return it as an
  `enum xlink_error`, and test results with `if (rc)`), so the C idiom
  `if (rc == 0)` after remapping is translated as `rc = X_LINK_SUCCESS`.
* Kernel allocation, the platform transport, and completion waits are
  nondeterministic environments; they enter as explicit `Bool`/outcome
  parameters (`allocOk`, `WaitOutcome`, ...), exactly at the program points
  where the C calls them.
-/

/-- `#define THR_UPR 85` (xlink-multiplexer.c line 34). -/
def THR_UPR : Nat := 85

/-- `#define THR_LWR 80` (xlink-multiplexer.c line 35). -/
def THR_LWR : Nat := 80

/-- `#define OPEN_CHANNEL_TIMEOUT_MSEC 5000` (xlink-multiplexer.c line 38). -/
def OPEN_CHANNEL_TIMEOUT_MSEC : Nat := 5000

/-- The xlink result codes used by the multiplexer core (`enum xlink_error`).
The enum itself lives in a uapi header outside the provided sources; the
constructors are the codes the provided sources name, with
`X_LINK_SUCCESS` the zero code (forced by the `if (rc)` idiom in the code). -/
inductive XLinkError where
  | X_LINK_SUCCESS
  | X_LINK_ALREADY_OPEN
  | X_LINK_COMMUNICATION_FAIL
  | X_LINK_TIMEOUT
  | X_LINK_ERROR
  | X_LINK_CHAN_FULL
  deriving DecidableEq, Repr

export XLinkError (X_LINK_SUCCESS X_LINK_ALREADY_OPEN X_LINK_COMMUNICATION_FAIL
  X_LINK_TIMEOUT X_LINK_ERROR X_LINK_CHAN_FULL)

/-- `enum xlink_opmode`: {receive-blocking|non-blocking} x
{transmit-blocking|non-blocking}. -/
inductive xlink_opmode where
  | RXB_TXB
  | RXN_TXB
  | RXB_TXN
  | RXN_TXN
  deriving DecidableEq, Repr

/-- `enum xlink_channel_status` values used by the multiplexer. -/
inductive chan_status where
  | CHAN_CLOSED
  | CHAN_OPEN_PEER
  | CHAN_OPEN
  deriving DecidableEq, Repr

/-- `struct packet` (data pointer modelled as a numeric identity, length in
bytes; the dma address plays no role in the claims). -/
structure packet where
  data : Nat
  length : Nat
  deriving DecidableEq, Repr

/-- `struct packet_queue`: bounded FIFO with a count and a fixed capacity. -/
structure packet_queue where
  count : Nat
  capacity : Nat
  pkts : List packet
  deriving DecidableEq, Repr

/-- `struct open_channel`: the runtime state owned by an open channel slot.
`ready_callback_registered` stands for `ready_callback != NULL`. -/
structure open_channel where
  rx_queue : packet_queue
  tx_queue : packet_queue
  rx_fill_level : Int
  tx_fill_level : Nat
  tx_packet_level : Nat
  tx_up_limit : Nat
  ready_callback_registered : Bool
  deriving DecidableEq, Repr

/-- `struct channel`: one slot of `xmux->channels[link_id][chan]`. -/
structure channel where
  opchan : Option open_channel
  mode : xlink_opmode
  status : chan_status
  ipc_status : chan_status
  size : Nat
  timeout : Nat
  deriving DecidableEq, Repr

/-- Selector for the queue pointer passed to the queue helpers (the C passes
`&opchan->rx_queue` or `&opchan->tx_queue`). -/
inductive QSel where
  | rx
  | tx
  deriving DecidableEq, Repr

/-- Dereference the queue selected by `q`. -/
def getQ (oc : open_channel) : QSel → packet_queue
  | QSel.rx => oc.rx_queue
  | QSel.tx => oc.tx_queue

/-- Store back the queue selected by `q`. -/
def setQ (oc : open_channel) : QSel → packet_queue → open_channel
  | QSel.rx, q => { oc with rx_queue := q }
  | QSel.tx, q => { oc with tx_queue := q }

/-- `chan_is_non_blocking_read` (xlink-multiplexer.c lines 218-225),
on the mode read through `opchan->chan->mode`. -/
def chan_is_non_blocking_read (mode : xlink_opmode) : Bool :=
  if mode = xlink_opmode.RXN_TXN ∨ mode = xlink_opmode.RXN_TXB then true else false

/-- `chan_is_non_blocking_write` (xlink-multiplexer.c lines 226-233). -/
def chan_is_non_blocking_write (mode : xlink_opmode) : Bool :=
  if mode = xlink_opmode.RXN_TXN ∨ mode = xlink_opmode.RXB_TXN then true else false

/-- `is_enough_space_in_channel` (xlink-multiplexer.c lines 271-296).
`cap` is `XLINK_PACKET_QUEUE_CAPACITY`, `chan_size` is `opchan->chan->size`.
Returns the C result (1 = enough space) together with the updated channel
state (the function latches `tx_up_limit`). -/
def is_enough_space_in_channel (cap chan_size : Nat) (oc : open_channel)
    (size : Nat) : Bool × open_channel :=
  if oc.tx_packet_level ≥ cap / 100 * THR_UPR then
    (false, oc)
  else if oc.tx_up_limit = 0 then
    (if oc.tx_fill_level + size > chan_size / 100 * THR_UPR then
      (false, { oc with tx_up_limit := 1 })
    else
      (true, oc))
  else if oc.tx_up_limit = 1 then
    (if oc.tx_fill_level + size < chan_size / 100 * THR_LWR then
      (true, { oc with tx_up_limit := 0 })
    else
      (false, oc))
  else
    (true, oc)

/-- `add_packet_to_channel` (xlink-multiplexer.c lines 329-348).
`allocOk` is the outcome of the `kzalloc` of the packet descriptor; the C
attempts it only when the queue has room.  Note the function increments
`rx_fill_level` whichever queue is passed, and returns `X_LINK_SUCCESS`
without queueing anything when the queue is already full. -/
def add_packet_to_channel (oc : open_channel) (q : QSel) (buffer size : Nat)
    (allocOk : Bool) : XLinkError × open_channel :=
  let queue := getQ oc q
  if queue.count < queue.capacity then
    if allocOk then
      let queue2 := { queue with
        pkts := queue.pkts ++ [{ data := buffer, length := size }],
        count := queue.count + 1 }
      (X_LINK_SUCCESS, { setQ oc q queue2 with
        rx_fill_level := oc.rx_fill_level + (size : Int) })
    else
      (X_LINK_ERROR, oc)
  else
    (X_LINK_SUCCESS, oc)

/-- The `list_for_each_entry` search of `release_packet_from_channel`
(xlink-multiplexer.c lines 364-382): the first packet whose `data` pointer
equals `addr`, if any. -/
def findFirst (p : packet → Bool) : List packet → Option packet
  | [] => none
  | x :: xs => if p x then some x else findFirst p xs

/-- The `list_del` of the packet found by `findFirst`: remove the first
packet satisfying `p`. -/
def removeFirst (p : packet → Bool) : List packet → List packet
  | [] => []
  | x :: xs => if p x then xs else x :: removeFirst p xs

/-- `release_packet_from_channel` (xlink-multiplexer.c lines 360-398).
`addr = none` releases the head of the queue, `addr = some a` the first
packet whose data pointer is `a`.  Returns the result code, the updated
channel and the packet handed to `xlink_platform_deallocate` (whose `length`
the C writes through the `size` out-parameter).  As in the C, the byte
counter decremented is always `rx_fill_level`, whichever queue is passed. -/
def release_packet_from_channel (oc : open_channel) (q : QSel)
    (addr : Option Nat) : XLinkError × open_channel × Option packet :=
  let queue := getQ oc q
  let found : Option packet :=
    match addr with
    | none => queue.pkts.head?
    | some a => findFirst (fun p => p.data = a) queue.pkts
  match found with
  | none => (X_LINK_ERROR, oc, none)
  | some pkt =>
    let newPkts : List packet :=
      match addr with
      | none => queue.pkts.tail
      | some a => removeFirst (fun p => p.data = a) queue.pkts
    let queue2 := { queue with pkts := newPkts, count := queue.count - 1 }
    (X_LINK_SUCCESS,
      { setQ oc q queue2 with
        rx_fill_level := oc.rx_fill_level - (pkt.length : Int) },
      some pkt)

/-- One `while (!list_empty(...)) release_packet_from_channel(..., NULL, NULL)`
loop of `multiplexer_close_channel`, run with fuel; the fuel is instantiated
with the queue length, which makes it a full drain.  Returns the drained
channel and the packets deallocated, oldest first. -/
def drainAux (q : QSel) : Nat → open_channel → open_channel × List packet
  | 0, oc => (oc, [])
  | Nat.succ n, oc =>
    match release_packet_from_channel oc q none with
    | (_, oc2, some pkt) =>
      let r := drainAux q n oc2
      (r.1, pkt :: r.2)
    | (_, oc2, none) => (oc2, [])

/-- `multiplexer_close_channel` on a non-NULL `opchan`
(xlink-multiplexer.c lines 457-481): drain the rx queue, then the tx queue,
then free the structure (the caller clears the slot's `opchan` pointer).
Returns the deallocated packets, rx queue first. -/
def multiplexer_close_channel (oc : open_channel) : XLinkError × List packet :=
  let r1 := drainAux QSel.rx oc.rx_queue.pkts.length oc
  let r2 := drainAux QSel.tx r1.1.tx_queue.pkts.length r1.1
  (X_LINK_SUCCESS, r1.2 ++ r2.2)

/-- The freshly initialised `open_channel` built by `multiplexer_open_channel`
(xlink-multiplexer.c lines 434-453); `cap` is `XLINK_PACKET_QUEUE_CAPACITY`. -/
def init_open_channel (cap : Nat) : open_channel :=
  { rx_queue := { count := 0, capacity := cap, pkts := [] }
    tx_queue := { count := 0, capacity := cap, pkts := [] }
    rx_fill_level := 0
    tx_fill_level := 0
    tx_packet_level := 0
    tx_up_limit := 0
    ready_callback_registered := false }

/-- `multiplexer_open_channel` (xlink-multiplexer.c lines 421-455) acting on
one slot: a no-op success when the slot already owns an `open_channel`,
otherwise allocate (`allocOk`) and install a fresh one. -/
def multiplexer_open_channel (cap : Nat) (allocOk : Bool) (slot : channel) :
    XLinkError × channel :=
  match slot.opchan with
  | some _ => (X_LINK_SUCCESS, slot)
  | none =>
    if allocOk then
      (X_LINK_SUCCESS, { slot with opchan := some (init_open_channel cap) })
    else
      (X_LINK_ERROR, slot)

/-- Outcome of one `wait_for_completion_interruptible[_timeout]` call:
positive return / plain-wait zero (success), zero from the timed variant
(timed out), negative (interrupted). -/
inductive WaitOutcome where
  | succeeded
  | timedOut
  | interrupted
  deriving DecidableEq, Repr

/-- The admission loop of the write cases of `xlink_multiplexer_tx`
(xlink-multiplexer.c lines 613-651): re-check `is_enough_space_in_channel`,
and while there is not enough space either wait on `pkt_released` (blocking
transmit modes) or fail with `X_LINK_CHAN_FULL` (non-blocking transmit
modes).  `env` supplies, for each wait the loop performs, the wait outcome
and the channel state observed after re-acquiring the lock (the completion
path mutates the channel while the lock is dropped).  `none` means the
supplied environment ended while the loop still had to wait (with
`ctimeout = 0` a `timedOut` outcome cannot occur and is also mapped to
`none`).  The `Nat` in the result counts the waits performed. -/
def tx_admission_loop (cap chan_size : Nat) (mode : xlink_opmode)
    (ctimeout size : Nat) :
    open_channel → List (WaitOutcome × open_channel) →
    Option (XLinkError × open_channel × Nat)
  | oc, env =>
    let r := is_enough_space_in_channel cap chan_size oc size
    if r.1 then
      some (X_LINK_SUCCESS, r.2, 0)
    else if mode = xlink_opmode.RXN_TXB ∨ mode = xlink_opmode.RXB_TXB then
      match env with
      | [] => none
      | (w, ocNext) :: rest =>
        match w with
        | WaitOutcome.succeeded =>
          (tx_admission_loop cap chan_size mode ctimeout size ocNext rest).map
            (fun p => (p.1, p.2.1, p.2.2 + 1))
        | WaitOutcome.timedOut =>
          if ctimeout = 0 then none else some (X_LINK_TIMEOUT, ocNext, 1)
        | WaitOutcome.interrupted => some (X_LINK_ERROR, ocNext, 1)
    else
      some (X_LINK_CHAN_FULL, r.2, 0)

/-- The `XLINK_WRITE_REQ` / `XLINK_WRITE_VOLATILE_REQ` /
`XLINK_WRITE_CONTROL_REQ` case of `xlink_multiplexer_tx`
(xlink-multiplexer.c lines 605-706), up to the hand-off to the dispatcher:
`COMMUNICATION_FAIL` when the slot has no runtime state or is not
`CHAN_OPEN`; otherwise run the admission loop and, once admitted, account
the packet (`tx_fill_level += size; tx_packet_level++`).  The result keeps
the wait count of the admission loop. -/
def tx_write_req (cap : Nat) (slot : channel) (size : Nat)
    (env : List (WaitOutcome × open_channel)) :
    Option (XLinkError × channel × Nat) :=
  match slot.opchan with
  | none => some (X_LINK_COMMUNICATION_FAIL, slot, 0)
  | some oc =>
    if slot.status ≠ chan_status.CHAN_OPEN then
      some (X_LINK_COMMUNICATION_FAIL, slot, 0)
    else
      match tx_admission_loop cap slot.size slot.mode slot.timeout size oc env with
      | none => none
      | some (rc, oc2, n) =>
        if rc = X_LINK_SUCCESS then
          some (X_LINK_SUCCESS,
            { slot with opchan := some { oc2 with
                tx_fill_level := oc2.tx_fill_level + size,
                tx_packet_level := oc2.tx_packet_level + 1 } }, n)
        else
          some (rc, { slot with opchan := some oc2 }, n)

/-- The result-code mapping of the blocking-read wait of the
`XLINK_READ_REQ` case (xlink-multiplexer.c lines 721-742): blocking-read
modes wait on `pkt_available` with outcome `w` (with `timeout = 0` the
plain wait cannot time out); non-blocking-read modes do not wait. -/
def read_wait_rc (mode : xlink_opmode) (ctimeout : Nat) (w : WaitOutcome) :
    XLinkError :=
  if mode = xlink_opmode.RXB_TXN ∨ mode = xlink_opmode.RXB_TXB then
    if ctimeout = 0 then
      match w with
      | WaitOutcome.interrupted => X_LINK_ERROR
      | _ => X_LINK_SUCCESS
    else
      match w with
      | WaitOutcome.succeeded => X_LINK_SUCCESS
      | WaitOutcome.timedOut => X_LINK_TIMEOUT
      | WaitOutcome.interrupted => X_LINK_ERROR
  else X_LINK_SUCCESS

/-- The `XLINK_READ_REQ` case of `xlink_multiplexer_tx` for a direct
(non-passthrough) channel (xlink-multiplexer.c lines 707-761):
`COMMUNICATION_FAIL` when the slot has no runtime state or is not open;
blocking-read modes wait via `read_wait_rc`; on success return the head
packet of the rx queue, or `X_LINK_ERROR` if the queue is empty. -/
def tx_read_req (slot : channel) (w : WaitOutcome) : XLinkError × Option packet :=
  match slot.opchan with
  | none => (X_LINK_COMMUNICATION_FAIL, none)
  | some oc =>
    if slot.status ≠ chan_status.CHAN_OPEN then
      (X_LINK_COMMUNICATION_FAIL, none)
    else if read_wait_rc slot.mode slot.timeout w = X_LINK_SUCCESS then
      match oc.rx_queue.pkts.head? with
      | some pkt => (X_LINK_SUCCESS, some pkt)
      | none => (X_LINK_ERROR, none)
    else
      (read_wait_rc slot.mode slot.timeout w, none)

/-- The `XLINK_OPEN_CHANNEL_REQ` case of `xlink_multiplexer_tx`
(xlink-multiplexer.c lines 832-879).  Inputs: the requested size, timeout
and mode carried by the event, the `kzalloc` outcome and, for the `CLOSED`
branch, the outcome of the bounded wait on `opchan->opened`.  Result:
the return code, the updated slot, whether the open-request event was
queued to the dispatcher, and the bound (ms) of the wait performed
(`none` when no wait was reached). -/
def tx_open_channel_req (cap : Nat) (slot : channel)
    (reqSize reqTimeout : Nat) (reqMode : xlink_opmode)
    (allocOk : Bool) (w : WaitOutcome) :
    XLinkError × channel × Bool × Option Nat :=
  match slot.status with
  | chan_status.CHAN_CLOSED =>
    let slot1 := { slot with size := reqSize, timeout := reqTimeout, mode := reqMode }
    match multiplexer_open_channel cap allocOk slot1 with
    | (rc0, slot2) =>
      if rc0 ≠ X_LINK_SUCCESS then
        (X_LINK_ERROR, slot2, false, none)
      else
        match slot2.opchan with
        | none => (X_LINK_COMMUNICATION_FAIL, slot2, false, none)
        | some oc =>
          match w with
          | WaitOutcome.succeeded =>
            (X_LINK_SUCCESS, { slot2 with status := chan_status.CHAN_OPEN },
              true, some OPEN_CHANNEL_TIMEOUT_MSEC)
          | WaitOutcome.timedOut =>
            -- multiplexer_close_channel(opchan): drain and free, slot keeps CHAN_CLOSED
            let _ := multiplexer_close_channel oc
            (X_LINK_TIMEOUT, { slot2 with opchan := none },
              true, some OPEN_CHANNEL_TIMEOUT_MSEC)
          | WaitOutcome.interrupted =>
            let _ := multiplexer_close_channel oc
            (X_LINK_ERROR, { slot2 with opchan := none },
              true, some OPEN_CHANNEL_TIMEOUT_MSEC)
  | chan_status.CHAN_OPEN_PEER =>
    -- adopt the peer-opened runtime state; rc is overwritten with success
    let slot1 := { slot with
      status := chan_status.CHAN_OPEN
      size := reqSize
      timeout := reqTimeout
      mode := reqMode }
    match multiplexer_open_channel cap allocOk slot1 with
    | (_, slot2) => (X_LINK_SUCCESS, slot2, false, none)
  | chan_status.CHAN_OPEN => (X_LINK_ALREADY_OPEN, slot, false, none)

/-- The `XLINK_CLOSE_CHANNEL_REQ` case of `xlink_multiplexer_tx`
(xlink-multiplexer.c lines 907-918): on a `CHAN_OPEN` slot, close the
runtime state (drain both queues) and mark the slot `CHAN_CLOSED`;
otherwise fail with `X_LINK_ERROR`.  The packet list is everything
`multiplexer_close_channel` deallocated. -/
def tx_close_channel_req (slot : channel) : XLinkError × channel × List packet :=
  if slot.status = chan_status.CHAN_OPEN then
    match slot.opchan with
    | some oc =>
      match multiplexer_close_channel oc with
      | (_, freed) =>
        (X_LINK_SUCCESS,
          { slot with status := chan_status.CHAN_CLOSED, opchan := none }, freed)
    | none => (X_LINK_ERROR, slot, [])
  else
    (X_LINK_ERROR, slot, [])

/-- Which write-completion event `xlink_multiplexer_rx` is handling:
`XLINK_WRITE_REQ`, `XLINK_WRITE_VOLATILE_REQ` (same case arm) or
`XLINK_WRITE_CONTROL_REQ`. -/
inductive WriteKind where
  | data
  | volatileData
  | control
  deriving DecidableEq, Repr

/-- Observable outcome of the write-completion cases of
`xlink_multiplexer_rx`. -/
structure rx_write_result where
  rc : XLinkError
  pkt_available_signaled : Bool
  callback_invoked : Bool
  opchan : Option open_channel
  buffer_deallocated : Bool
  deriving DecidableEq, Repr

/-- The `XLINK_WRITE_REQ`/`XLINK_WRITE_VOLATILE_REQ` (lines 1081-1136) and
`XLINK_WRITE_CONTROL_REQ` (lines 1137-1172) cases of `xlink_multiplexer_rx`.
`allocOk` is the platform buffer allocation, `readOk` the
`xlink_platform_read` of the payload (size match included; control data is
`memcpy`-ed instead, so `readOk` is not consulted for `control`),
`pktAllocOk` the packet-descriptor `kzalloc` inside
`add_packet_to_channel`, and `callbackRc` the result of `run_callback`.
On the success path the handler queues the packet on the rx queue, raises
`pkt_available` unconditionally, and — only in the data/volatile arm — runs
the ready callback when the slot is `CHAN_OPEN`, the mode is
non-blocking-read and a callback is registered. -/
def xlink_multiplexer_rx_write (kind : WriteKind) (slot : channel)
    (allocOk readOk pktAllocOk : Bool) (buffer size : Nat)
    (callbackRc : XLinkError) : rx_write_result :=
  match slot.opchan with
  | none =>
    { rc := X_LINK_COMMUNICATION_FAIL, pkt_available_signaled := false,
      callback_invoked := false, opchan := none, buffer_deallocated := false }
  | some oc =>
    match kind with
    | WriteKind.control =>
      if allocOk then
        match add_packet_to_channel oc QSel.rx buffer size pktAllocOk with
        | (rc1, oc2) =>
          if rc1 = X_LINK_SUCCESS then
            { rc := X_LINK_SUCCESS, pkt_available_signaled := true,
              callback_invoked := false, opchan := some oc2,
              buffer_deallocated := false }
          else
            { rc := X_LINK_ERROR, pkt_available_signaled := false,
              callback_invoked := false, opchan := some oc,
              buffer_deallocated := true }
      else
        { rc := X_LINK_ERROR, pkt_available_signaled := false,
          callback_invoked := false, opchan := some oc,
          buffer_deallocated := false }
    | _ =>
      if allocOk then
        if readOk then
          match add_packet_to_channel oc QSel.rx buffer size pktAllocOk with
          | (rc1, oc2) =>
            if rc1 = X_LINK_SUCCESS then
              if slot.status = chan_status.CHAN_OPEN ∧
                  chan_is_non_blocking_read slot.mode = true ∧
                  oc2.ready_callback_registered = true then
                { rc := callbackRc, pkt_available_signaled := true,
                  callback_invoked := true, opchan := some oc2,
                  buffer_deallocated := false }
              else
                { rc := X_LINK_SUCCESS, pkt_available_signaled := true,
                  callback_invoked := false, opchan := some oc2,
                  buffer_deallocated := false }
            else
              { rc := X_LINK_ERROR, pkt_available_signaled := false,
                callback_invoked := false, opchan := some oc,
                buffer_deallocated := true }
        else
          { rc := X_LINK_ERROR, pkt_available_signaled := false,
            callback_invoked := false, opchan := some oc,
            buffer_deallocated := true }
      else
        { rc := X_LINK_ERROR, pkt_available_signaled := false,
          callback_invoked := false, opchan := some oc,
          buffer_deallocated := false }

/-- Observable outcome of one upper-API write entry point of xlink-core.c:
the returned code, whether a payload buffer allocation was attempted, and
whether the request reached the multiplexer / transport path. -/
structure write_attempt where
  rc : XLinkError
  buffer_alloc_attempted : Bool
  submitted : Bool
  deriving DecidableEq, Repr

/-- `xlink_write_data` (xlink-core.c lines 871-908).  `maxDataSize` is
`XLINK_MAX_DATA_SIZE` (header outside the provided sources, hence a
parameter).  The size check precedes the link lookup, event creation and
the hand-off to `xlink_multiplexer_tx`; this entry point allocates no
payload buffer itself. -/
def xlink_write_data (maxDataSize size : Nat) (linkOk evOk : Bool)
    (muxRc : XLinkError) : write_attempt :=
  if size > maxDataSize then
    { rc := X_LINK_ERROR, buffer_alloc_attempted := false, submitted := false }
  else if linkOk then
    if evOk then
      { rc := muxRc, buffer_alloc_attempted := false, submitted := true }
    else
      { rc := X_LINK_ERROR, buffer_alloc_attempted := false, submitted := false }
  else
    { rc := X_LINK_ERROR, buffer_alloc_attempted := false, submitted := false }

/-- `xlink_write_control_data` (xlink-core.c lines 976-1005).
`maxControlSize` is `XLINK_MAX_CONTROL_DATA_SIZE`.  The size check precedes
everything else; the control payload is copied into the event header, no
payload buffer is allocated. -/
def xlink_write_control_data (maxControlSize size : Nat) (linkOk evOk : Bool)
    (muxRc : XLinkError) : write_attempt :=
  if size > maxControlSize then
    { rc := X_LINK_ERROR, buffer_alloc_attempted := false, submitted := false }
  else if linkOk then
    if evOk then
      { rc := muxRc, buffer_alloc_attempted := false, submitted := true }
    else
      { rc := X_LINK_ERROR, buffer_alloc_attempted := false, submitted := false }
  else
    { rc := X_LINK_ERROR, buffer_alloc_attempted := false, submitted := false }

/-- `xlink_write_volatile` (xlink-core.c lines 1007-1052).  `maxBufSize` is
`XLINK_MAX_BUF_SIZE`.  The size check comes first; only afterwards does the
function allocate the bounce buffer (`allocOk`) and submit the event. -/
def xlink_write_volatile (maxBufSize size : Nat) (linkOk evOk allocOk : Bool)
    (muxRc : XLinkError) : write_attempt :=
  if size > maxBufSize then
    { rc := X_LINK_ERROR, buffer_alloc_attempted := false, submitted := false }
  else if linkOk then
    if evOk then
      if allocOk then
        { rc := muxRc, buffer_alloc_attempted := true, submitted := true }
      else
        { rc := X_LINK_ERROR, buffer_alloc_attempted := true, submitted := false }
    else
      { rc := X_LINK_ERROR, buffer_alloc_attempted := false, submitted := false }
  else
    { rc := X_LINK_ERROR, buffer_alloc_attempted := false, submitted := false }

/-- The multiplexer operations that touch one channel's rx queue and
`rx_fill_level`: enqueue of a received packet (the rx write-completion path,
`add_packet_to_channel` on the rx queue), release of a packet (the
`XLINK_RELEASE_REQ` tx path), and the close-request drain. -/
inductive MuxOp where
  | enqueue (buffer size : Nat) (allocOk : Bool)
  | release (addr : Option Nat)
  | closeDrain
  deriving DecidableEq, Repr

/-- One multiplexer operation on the optional runtime state of one channel
(`none` = slot closed, on which `get_channel` returns NULL and the
operation is refused without touching any state). -/
def muxStep (st : Option open_channel) (op : MuxOp) : Option open_channel :=
  match st, op with
  | none, _ => none
  | some oc, MuxOp.enqueue buffer size allocOk =>
    some (add_packet_to_channel oc QSel.rx buffer size allocOk).2
  | some oc, MuxOp.release addr =>
    some (release_packet_from_channel oc QSel.rx addr).2.1
  | some oc, MuxOp.closeDrain =>
    let _ := multiplexer_close_channel oc
    none

/-- Run a sequence of multiplexer operations from a freshly opened channel
(`multiplexer_open_channel`'s initial state with queue capacity `cap`). -/
def muxRun (cap : Nat) (ops : List MuxOp) : Option open_channel :=
  ops.foldl muxStep (some (init_open_channel cap))

/-- Sum of the lengths of the queued packets. -/
def qsum (pkts : List packet) : Nat :=
  (pkts.map packet.length).sum

/-- The fill-level invariant of one open channel: `rx_fill_level` is exactly
the sum of the queued rx packet lengths, and (as established by the code,
which never adds a packet to a tx queue) the tx queue is empty. -/
def rxInv (oc : open_channel) : Prop :=
  oc.rx_fill_level = (qsum oc.rx_queue.pkts : Int) ∧ oc.tx_queue.pkts = []

/-- Lift `rxInv` to a possibly-closed channel. -/
def stInv : Option open_channel → Prop
  | none => True
  | some oc => rxInv oc

/-- Concrete channel state with the over-watermark latch set, used by the
C2 witness. -/
def oc_flagged : open_channel :=
  ⟨⟨0, 10000, []⟩, ⟨0, 10000, []⟩, 0, 3000, 0, 1, false⟩

/-- Concrete channel state whose in-flight tx packet count equals the queue
capacity (10000), used by the C5 witness. -/
def oc_at_cap : open_channel :=
  ⟨⟨0, 10000, []⟩, ⟨0, 10000, []⟩, 0, 0, 10000, 0, false⟩

/-- Concrete slot wrapping `oc_at_cap` with a non-blocking-transmit mode. -/
def slot_at_cap : channel :=
  ⟨some oc_at_cap, xlink_opmode.RXB_TXN, chan_status.CHAN_OPEN,
    chan_status.CHAN_CLOSED, 4096, 0⟩

/-- Concrete idle channel state, used by the C10 witness. -/
def oc_idle : open_channel :=
  ⟨⟨0, 10000, []⟩, ⟨0, 10000, []⟩, 0, 0, 0, 0, false⟩

/-- Concrete open-channel state with a registered ready callback and an
empty rx queue of capacity 4, used for C6. -/
def oc_cb : open_channel :=
  ⟨⟨0, 4, []⟩, ⟨0, 4, []⟩, 0, 0, 0, 0, true⟩

/-- Concrete `CHAN_OPEN` slot in non-blocking-read mode wrapping `oc_cb`,
used for C6. -/
def slot_cb : channel :=
  ⟨some oc_cb, xlink_opmode.RXN_TXB, chan_status.CHAN_OPEN,
    chan_status.CHAN_CLOSED, 1024, 0⟩

/-- Concrete open-channel state whose rx queue is full (count = capacity =
2), used by the C9 witness. -/
def oc_rx_full : open_channel :=
  ⟨⟨2, 2, [⟨1, 5⟩, ⟨2, 6⟩]⟩, ⟨0, 2, []⟩, 11, 0, 0, 0, false⟩

/-- Concrete `CHAN_OPEN` slot wrapping `oc_rx_full`, used by the C9
witness. -/
def slot_rx_full : channel :=
  ⟨some oc_rx_full, xlink_opmode.RXB_TXB, chan_status.CHAN_OPEN,
    chan_status.CHAN_CLOSED, 1024, 100⟩

/-- Concrete open-channel state holding one rx packet and one tx packet,
used by the C4 witness. -/
def oc_with_pkts : open_channel :=
  ⟨⟨1, 4, [⟨9, 7⟩]⟩, ⟨1, 4, [⟨11, 3⟩]⟩, 7, 3, 1, 0, false⟩

/-- Concrete `CHAN_OPEN` slot wrapping `oc_with_pkts`, used by the C4
witness. -/
def slot_open_pkts : channel :=
  ⟨some oc_with_pkts, xlink_opmode.RXB_TXB, chan_status.CHAN_OPEN,
    chan_status.CHAN_CLOSED, 4096, 100⟩

/-- Concrete `CHAN_CLOSED` slot with no runtime state, used by the C3 and
C4 witnesses. -/
def slot_closed : channel :=
  ⟨none, xlink_opmode.RXB_TXB, chan_status.CHAN_CLOSED,
    chan_status.CHAN_CLOSED, 0, 0⟩

/-- Concrete `CHAN_OPEN_PEER` slot owning a peer-allocated runtime state,
used by the C7 witness. -/
def slot_peer : channel :=
  ⟨some (init_open_channel 4), xlink_opmode.RXB_TXB, chan_status.CHAN_OPEN_PEER,
    chan_status.CHAN_CLOSED, 0, 0⟩

/-- The channel state reached by the C1 witness run (two packets queued). -/
def oc_run : open_channel :=
  ⟨⟨2, 4, [⟨1, 5⟩, ⟨2, 7⟩]⟩, ⟨0, 4, []⟩, 12, 0, 0, 0, false⟩

/-- The channel state after the C1 witness releases the packet at address 1. -/
def oc_run2 : open_channel :=
  ⟨⟨1, 4, [⟨2, 7⟩]⟩, ⟨0, 4, []⟩, 7, 0, 0, 0, false⟩

/-!
Helper lemmas shared by several claims.
-/

theorem qsum_append (l1 l2 : List packet) : qsum (l1 ++ l2) = qsum l1 + qsum l2 := by
  simp [qsum]

theorem hard_cap_le (cap : Nat) : cap / 100 * THR_UPR ≤ cap := by
  calc cap / 100 * THR_UPR ≤ cap / 100 * 100 :=
        Nat.mul_le_mul_left _ (by norm_num [THR_UPR])
    _ ≤ cap := Nat.div_mul_le_self cap 100

theorem tx_admission_loop_nonblocking (cap chan_size : Nat) (mode : xlink_opmode)
    (ctimeout size : Nat) (oc oc2 : open_channel)
    (env : List (WaitOutcome × open_channel))
    (hmode : ¬(mode = xlink_opmode.RXN_TXB ∨ mode = xlink_opmode.RXB_TXB))
    (hsp : is_enough_space_in_channel cap chan_size oc size = (false, oc2)) :
    tx_admission_loop cap chan_size mode ctimeout size oc env
      = some (X_LINK_CHAN_FULL, oc2, 0) := by
  cases env <;> simp [tx_admission_loop, hsp, hmode]

/-- C2 auxiliary: with the latch set and the hard cap not hit,
`is_enough_space_in_channel` admits exactly below the lower threshold. -/
theorem is_enough_space_flagged (cap chan_size : Nat) (oc : open_channel)
    (size : Nat)
    (hflag : oc.tx_up_limit = 1)
    (hcap : oc.tx_packet_level < cap / 100 * THR_UPR) :
    is_enough_space_in_channel cap chan_size oc size
      = (if oc.tx_fill_level + size < chan_size / 100 * THR_LWR then
          (true, { oc with tx_up_limit := 0 })
        else
          (false, oc)) := by
  have h1 : ¬(oc.tx_packet_level ≥ cap / 100 * THR_UPR) := Nat.not_le.mpr hcap
  simp [is_enough_space_in_channel, h1, hflag]

/-!
Claims.
-/

/-- C2: hysteresis of transmit admission.  Once the over-watermark latch
`tx_up_limit` is set, a writer is not admitted at any byte fill for which
`tx_fill_level + size` is at or above 80% of the configured channel capacity
(in particular anywhere in the 80%-85% band), and it is admitted — with the
latch cleared — exactly when `tx_fill_level + size` drops strictly below 80%
of capacity.  The hard-cap hypothesis keeps the in-flight packet count below
the packet-queue limit, the branch the byte hysteresis sits behind. -/
theorem C2_hysteresis (cap chan_size : Nat) (oc : open_channel) (size : Nat)
    (hflag : oc.tx_up_limit = 1)
    (hcap : oc.tx_packet_level < cap / 100 * THR_UPR) :
    (chan_size / 100 * THR_LWR ≤ oc.tx_fill_level + size →
      is_enough_space_in_channel cap chan_size oc size = (false, oc)) ∧
    (oc.tx_fill_level + size < chan_size / 100 * THR_LWR →
      is_enough_space_in_channel cap chan_size oc size
        = (true, { oc with tx_up_limit := 0 })) := by
  constructor
  · intro h
    rw [is_enough_space_flagged cap chan_size oc size hflag hcap]
    simp [Nat.not_lt.mpr h]
  · intro h
    rw [is_enough_space_flagged cap chan_size oc size hflag hcap]
    simp [h]

/-- C2 witness: `oc_flagged` (capacity 4096, fill 3000, latch set) with a
1000-byte request sits above the 80% threshold 3276 and is refused with the
latch kept; a 100-byte request at fill 3000 is below 3276 and is admitted
with the latch cleared. -/
theorem C2_hysteresis_witness :
    oc_flagged.tx_up_limit = 1 ∧
    oc_flagged.tx_packet_level < 10000 / 100 * THR_UPR ∧
    (4096 / 100 * THR_LWR ≤ oc_flagged.tx_fill_level + 1000 →
      is_enough_space_in_channel 10000 4096 oc_flagged 1000 = (false, oc_flagged)) ∧
    (oc_flagged.tx_fill_level + 1000 < 4096 / 100 * THR_LWR →
      is_enough_space_in_channel 10000 4096 oc_flagged 1000
        = (true, { oc_flagged with tx_up_limit := 0 })) :=
  ⟨by decide, by decide, (C2_hysteresis 10000 4096 oc_flagged 1000 (by decide) (by decide)).1,
    (C2_hysteresis 10000 4096 oc_flagged 1000 (by decide) (by decide)).2⟩

/-- C10: the admission thresholds use integer division, so on a channel whose
configured byte capacity is below 100 both `(size/100)*85` and `(size/100)*80`
are zero; any nonzero-size request is treated as over-watermark, and a
non-blocking write is refused with `X_LINK_CHAN_FULL` after zero waits. -/
theorem C10_small_capacity (cap chan_size ctimeout size : Nat)
    (mode : xlink_opmode) (oc : open_channel)
    (env : List (WaitOutcome × open_channel))
    (hsize : 0 < size)
    (hsmall : chan_size < 100)
    (hflag : oc.tx_up_limit ≤ 1)
    (hcap : oc.tx_packet_level < cap / 100 * THR_UPR)
    (hmode : mode = xlink_opmode.RXN_TXN ∨ mode = xlink_opmode.RXB_TXN) :
    chan_size / 100 * THR_UPR = 0 ∧
    chan_size / 100 * THR_LWR = 0 ∧
    (is_enough_space_in_channel cap chan_size oc size).1 = false ∧
    (tx_admission_loop cap chan_size mode ctimeout size oc env).map
        (fun r => (r.1, r.2.2))
      = some (X_LINK_CHAN_FULL, 0) := by
  have hdiv : chan_size / 100 = 0 := Nat.div_eq_of_lt hsmall
  have h1 : ¬(oc.tx_packet_level ≥ cap / 100 * THR_UPR) := Nat.not_le.mpr hcap
  have hmode2 : ¬(mode = xlink_opmode.RXN_TXB ∨ mode = xlink_opmode.RXB_TXB) := by
    rcases hmode with h | h <;> simp [h]
  have hflag01 : oc.tx_up_limit = 0 ∨ oc.tx_up_limit = 1 := by omega
  have hgt : oc.tx_fill_level + size > chan_size / 100 * THR_UPR := by
    rw [hdiv]; simpa using Nat.lt_of_lt_of_le hsize (Nat.le_add_left size _)
  have hnlt : ¬(oc.tx_fill_level + size < chan_size / 100 * THR_LWR) := by
    rw [hdiv]; simp
  have hsp : ∃ oc2, is_enough_space_in_channel cap chan_size oc size = (false, oc2) := by
    rcases hflag01 with h | h
    · refine ⟨{ oc with tx_up_limit := 1 }, ?_⟩
      simp [is_enough_space_in_channel, h1, h, hgt]
    · refine ⟨oc, ?_⟩
      simp [is_enough_space_in_channel, h1, h, hnlt]
  rcases hsp with ⟨oc2, hsp⟩
  refine ⟨by rw [hdiv]; ring, by rw [hdiv]; ring, by rw [hsp], ?_⟩
  rw [tx_admission_loop_nonblocking cap chan_size mode ctimeout size oc oc2 env hmode2 hsp]
  rfl

/-- C5: a non-blocking write on a channel whose in-flight tx packet count
already equals the queue capacity (100%) is refused with `X_LINK_CHAN_FULL`
and performs no blocking wait: the packet-level hard cap makes
`is_enough_space_in_channel` fail, and the non-blocking branch of the
admission loop breaks out immediately (zero waits), for every wait
environment. -/
theorem C5_nonblocking_full (cap size : Nat) (slot : channel)
    (oc : open_channel) (env : List (WaitOutcome × open_channel))
    (hopen : slot.status = chan_status.CHAN_OPEN)
    (hoc : slot.opchan = some oc)
    (hmode : slot.mode = xlink_opmode.RXN_TXN ∨ slot.mode = xlink_opmode.RXB_TXN)
    (hfull : oc.tx_packet_level = cap) :
    tx_write_req cap slot size env
      = some (X_LINK_CHAN_FULL, { slot with opchan := some oc }, 0) := by
  have hmode2 : ¬(slot.mode = xlink_opmode.RXN_TXB ∨ slot.mode = xlink_opmode.RXB_TXB) := by
    rcases hmode with h | h <;> simp [h]
  have hge : oc.tx_packet_level ≥ cap / 100 * THR_UPR := hfull ▸ hard_cap_le cap
  have hsp : is_enough_space_in_channel cap slot.size oc size = (false, oc) := by
    simp [is_enough_space_in_channel, hge]
  have hloop := tx_admission_loop_nonblocking cap slot.size slot.mode slot.timeout
    size oc oc env hmode2 hsp
  simp [tx_write_req, hoc, hopen, hloop]

/-- C5 witness: `slot_at_cap` (queue capacity 10000, in-flight count 10000,
mode `RXB_TXN`): a 100-byte write returns `X_LINK_CHAN_FULL` with zero
waits. -/
theorem C5_nonblocking_full_witness :
    slot_at_cap.status = chan_status.CHAN_OPEN ∧
    slot_at_cap.opchan = some oc_at_cap ∧
    (slot_at_cap.mode = xlink_opmode.RXN_TXN ∨ slot_at_cap.mode = xlink_opmode.RXB_TXN) ∧
    oc_at_cap.tx_packet_level = 10000 ∧
    tx_write_req 10000 slot_at_cap 100 []
      = some (X_LINK_CHAN_FULL, { slot_at_cap with opchan := some oc_at_cap }, 0) :=
  ⟨by decide, by decide, Or.inr rfl, by decide,
    C5_nonblocking_full 10000 100 slot_at_cap oc_at_cap []
      (by decide) (by decide) (Or.inr rfl) (by decide)⟩

/-- C8: each of the three write classes checks its own maximum
single-request payload size first: any oversized request is refused with
`X_LINK_ERROR` before any payload-buffer allocation is attempted and before
the request is submitted to the multiplexer/transport, whatever the
downstream environment would have done. -/
theorem C8_size_bounds (maxDataSize maxControlSize maxBufSize : Nat)
    (size1 size2 size3 : Nat) (linkOk evOk allocOk : Bool) (muxRc : XLinkError)
    (h1 : size1 > maxDataSize)
    (h2 : size2 > maxControlSize)
    (h3 : size3 > maxBufSize) :
    xlink_write_data maxDataSize size1 linkOk evOk muxRc
      = { rc := X_LINK_ERROR, buffer_alloc_attempted := false, submitted := false } ∧
    xlink_write_control_data maxControlSize size2 linkOk evOk muxRc
      = { rc := X_LINK_ERROR, buffer_alloc_attempted := false, submitted := false } ∧
    xlink_write_volatile maxBufSize size3 linkOk evOk allocOk muxRc
      = { rc := X_LINK_ERROR, buffer_alloc_attempted := false, submitted := false } := by
  refine ⟨?_, ?_, ?_⟩ <;>
    simp [xlink_write_data, xlink_write_control_data, xlink_write_volatile, h1, h2, h3]

/-- C8 witness: bounds 16777216 / 100 / 128 with oversized requests
16777217 / 101 / 129 — each class refuses with `X_LINK_ERROR`, no
allocation, no submission. -/
theorem C8_size_bounds_witness :
    16777217 > 16777216 ∧ 101 > 100 ∧ 129 > 128 ∧
    (xlink_write_data 16777216 16777217 true true X_LINK_SUCCESS
       = { rc := X_LINK_ERROR, buffer_alloc_attempted := false, submitted := false } ∧
     xlink_write_control_data 100 101 true true X_LINK_SUCCESS
       = { rc := X_LINK_ERROR, buffer_alloc_attempted := false, submitted := false } ∧
     xlink_write_volatile 128 129 true true true X_LINK_SUCCESS
       = { rc := X_LINK_ERROR, buffer_alloc_attempted := false, submitted := false }) :=
  ⟨by decide, by decide, by decide,
    C8_size_bounds 16777216 100 128 16777217 101 129 true true true X_LINK_SUCCESS
      (by decide) (by decide) (by decide)⟩

/-- C10 witness: a channel configured with capacity 64 bytes (< 100), idle
state, a 1-byte non-blocking write: both thresholds are 0 and the write is
refused with `X_LINK_CHAN_FULL` without waiting. -/
theorem C10_small_capacity_witness :
    0 < 1 ∧ 64 < 100 ∧ oc_idle.tx_up_limit ≤ 1 ∧
    oc_idle.tx_packet_level < 10000 / 100 * THR_UPR ∧
    (64 / 100 * THR_UPR = 0 ∧
     64 / 100 * THR_LWR = 0 ∧
     (is_enough_space_in_channel 10000 64 oc_idle 1).1 = false ∧
     (tx_admission_loop 10000 64 xlink_opmode.RXN_TXN 0 1 oc_idle []).map
         (fun r => (r.1, r.2.2))
       = some (X_LINK_CHAN_FULL, 0)) :=
  ⟨by decide, by decide, by decide, by decide,
    C10_small_capacity 10000 64 0 1 xlink_opmode.RXN_TXN oc_idle []
      (by decide) (by decide) (by decide) (by decide) (Or.inl rfl)⟩

theorem add_packet_rc_true (oc : open_channel) (q : QSel) (buffer size : Nat) :
    (add_packet_to_channel oc q buffer size true).1 = X_LINK_SUCCESS := by
  by_cases h : (getQ oc q).count < (getQ oc q).capacity <;>
    simp [add_packet_to_channel, h]

theorem add_packet_preserves_cb (oc : open_channel) (q : QSel)
    (buffer size : Nat) (allocOk : Bool) :
    ((add_packet_to_channel oc q buffer size allocOk).2).ready_callback_registered
      = oc.ready_callback_registered := by
  cases q <;> cases allocOk <;>
    simp [add_packet_to_channel, getQ, setQ] <;>
    split <;> simp

/-- C9: when the rx queue's count already equals its capacity,
`add_packet_to_channel` leaves the channel (queue, count, fill level)
unchanged, does not fail — it returns `X_LINK_SUCCESS` — and the rx
write-completion path therefore reports success, raises `pkt_available`,
and neither queues nor deallocates the received buffer. -/
theorem C9_full_queue_enqueue (slot : channel) (oc : open_channel)
    (buffer size : Nat)
    (hoc : slot.opchan = some oc)
    (hfull : oc.rx_queue.count = oc.rx_queue.capacity)
    (hcb : oc.ready_callback_registered = false) :
    add_packet_to_channel oc QSel.rx buffer size true = (X_LINK_SUCCESS, oc) ∧
    xlink_multiplexer_rx_write WriteKind.data slot true true true buffer size
        X_LINK_SUCCESS
      = { rc := X_LINK_SUCCESS, pkt_available_signaled := true,
          callback_invoked := false, opchan := some oc,
          buffer_deallocated := false } := by
  have hnlt : ¬(oc.rx_queue.count < oc.rx_queue.capacity) := by omega
  have hadd : add_packet_to_channel oc QSel.rx buffer size true
      = (X_LINK_SUCCESS, oc) := by
    simp [add_packet_to_channel, getQ, hnlt]
  refine ⟨hadd, ?_⟩
  simp [xlink_multiplexer_rx_write, hoc, hadd, hcb]

/-- C9 witness: `slot_rx_full` (rx queue count = capacity = 2): an enqueue
of a 9-byte packet at address 3 is dropped while the handler still reports
success, signals `pkt_available` and does not deallocate the buffer. -/
theorem C9_full_queue_enqueue_witness :
    slot_rx_full.opchan = some oc_rx_full ∧
    oc_rx_full.rx_queue.count = oc_rx_full.rx_queue.capacity ∧
    oc_rx_full.ready_callback_registered = false ∧
    (add_packet_to_channel oc_rx_full QSel.rx 3 9 true
        = (X_LINK_SUCCESS, oc_rx_full) ∧
     xlink_multiplexer_rx_write WriteKind.data slot_rx_full true true true 3 9
         X_LINK_SUCCESS
       = { rc := X_LINK_SUCCESS, pkt_available_signaled := true,
           callback_invoked := false, opchan := some oc_rx_full,
           buffer_deallocated := false }) :=
  ⟨by decide, by decide, by decide,
    C9_full_queue_enqueue slot_rx_full oc_rx_full 3 9
      (by decide) (by decide) (by decide)⟩

/-- C6 counterexample: the claim asserts that for every write completion
delivered to an open channel the registered ready callback runs if and only
if the mode is non-blocking-read and a callback is registered.  On the
concrete open channel `slot_cb` (mode `RXN_TXB`, callback registered) a
`XLINK_WRITE_CONTROL_REQ` completion raises `pkt_available` but does not
invoke the callback: the control arm of `xlink_multiplexer_rx` (lines
1137-1172) has no `run_callback` call, refuting the "if" direction. -/
theorem C6_control_no_callback_counterexample :
    slot_cb.status = chan_status.CHAN_OPEN ∧
    slot_cb.opchan = some oc_cb ∧
    chan_is_non_blocking_read slot_cb.mode = true ∧
    oc_cb.ready_callback_registered = true ∧
    (xlink_multiplexer_rx_write WriteKind.control slot_cb true true true 7 3
        X_LINK_SUCCESS).pkt_available_signaled = true ∧
    (xlink_multiplexer_rx_write WriteKind.control slot_cb true true true 7 3
        X_LINK_SUCCESS).callback_invoked = false := by
  decide

/-- C6 amended: for every successful write completion delivered to an open
channel the `pkt_available` signal is raised unconditionally, and the ready
callback is invoked if and only if the completion is a data or volatile
write (not a control write), the mode is non-blocking-read and a ready
callback is registered. -/
theorem C6_signal_and_callback (kind : WriteKind) (slot : channel)
    (oc : open_channel) (buffer size : Nat)
    (hoc : slot.opchan = some oc)
    (hst : slot.status = chan_status.CHAN_OPEN) :
    (xlink_multiplexer_rx_write kind slot true true true buffer size
        X_LINK_SUCCESS).pkt_available_signaled = true ∧
    ((xlink_multiplexer_rx_write kind slot true true true buffer size
        X_LINK_SUCCESS).callback_invoked = true ↔
      (kind ≠ WriteKind.control ∧
       chan_is_non_blocking_read slot.mode = true ∧
       oc.ready_callback_registered = true)) := by
  have hadd := add_packet_rc_true oc QSel.rx buffer size
  have hcb := add_packet_preserves_cb oc QSel.rx buffer size true
  rcases hadd2 : add_packet_to_channel oc QSel.rx buffer size true with ⟨rc1, oc2⟩
  rw [hadd2] at hadd hcb
  simp at hadd hcb
  cases kind
  case control =>
    simp [xlink_multiplexer_rx_write, hoc, hadd2, hadd]
  case data =>
    by_cases hc : chan_is_non_blocking_read slot.mode = true ∧
        oc.ready_callback_registered = true
    · simp [xlink_multiplexer_rx_write, hoc, hadd2, hadd, hst, hcb, hc.1, hc.2]
    · rw [Classical.not_and_iff_or_not_not] at hc
      rcases hc with hc | hc <;>
        simp [xlink_multiplexer_rx_write, hoc, hadd2, hadd, hst, hcb, hc]
  case volatileData =>
    by_cases hc : chan_is_non_blocking_read slot.mode = true ∧
        oc.ready_callback_registered = true
    · simp [xlink_multiplexer_rx_write, hoc, hadd2, hadd, hst, hcb, hc.1, hc.2]
    · rw [Classical.not_and_iff_or_not_not] at hc
      rcases hc with hc | hc <;>
        simp [xlink_multiplexer_rx_write, hoc, hadd2, hadd, hst, hcb, hc]

/-- C6 amended witness: on `slot_cb`, a volatile-write completion raises the
signal and invokes the callback (mode `RXN_TXB`, callback registered). -/
theorem C6_signal_and_callback_witness :
    slot_cb.opchan = some oc_cb ∧
    slot_cb.status = chan_status.CHAN_OPEN ∧
    ((xlink_multiplexer_rx_write WriteKind.volatileData slot_cb true true true 7 3
        X_LINK_SUCCESS).pkt_available_signaled = true ∧
     ((xlink_multiplexer_rx_write WriteKind.volatileData slot_cb true true true 7 3
        X_LINK_SUCCESS).callback_invoked = true ↔
       (WriteKind.volatileData ≠ WriteKind.control ∧
        chan_is_non_blocking_read slot_cb.mode = true ∧
        oc_cb.ready_callback_registered = true))) :=
  ⟨by decide, by decide,
    C6_signal_and_callback WriteKind.volatileData slot_cb oc_cb 7 3
      (by decide) (by decide)⟩

/-- C7: a local open request on a slot in `CHAN_OPEN_PEER` state adopts the
already-allocated runtime state unchanged, stores the requested size,
timeout and mode, moves the slot directly to `CHAN_OPEN` and returns
`X_LINK_SUCCESS`; the result does not depend on any wait outcome and the
reported wait bound is `none` — no handshake wait is reached. -/
theorem C7_open_peer (cap reqSize reqTimeout : Nat) (reqMode : xlink_opmode)
    (slot : channel) (oc : open_channel) (allocOk : Bool) (w : WaitOutcome)
    (hst : slot.status = chan_status.CHAN_OPEN_PEER)
    (hoc : slot.opchan = some oc) :
    tx_open_channel_req cap slot reqSize reqTimeout reqMode allocOk w
      = (X_LINK_SUCCESS,
         { slot with
           status := chan_status.CHAN_OPEN
           size := reqSize
           timeout := reqTimeout
           mode := reqMode },
         false, none) := by
  simp [tx_open_channel_req, hst, multiplexer_open_channel, hoc]

/-- C7 witness: `slot_peer` (status `CHAN_OPEN_PEER`, peer-allocated runtime
state) opened locally with size 2048, timeout 700, mode `RXN_TXN`. -/
theorem C7_open_peer_witness :
    slot_peer.status = chan_status.CHAN_OPEN_PEER ∧
    slot_peer.opchan = some (init_open_channel 4) ∧
    tx_open_channel_req 4 slot_peer 2048 700 xlink_opmode.RXN_TXN true
        WaitOutcome.succeeded
      = (X_LINK_SUCCESS,
         { slot_peer with
           status := chan_status.CHAN_OPEN
           size := 2048
           timeout := 700
           mode := xlink_opmode.RXN_TXN },
         false, none) :=
  ⟨by decide, by decide,
    C7_open_peer 4 2048 700 xlink_opmode.RXN_TXN slot_peer (init_open_channel 4)
      true WaitOutcome.succeeded (by decide) (by decide)⟩

/-- C3: a local open request on a `CHAN_CLOSED` slot stores the requested
size, timeout and mode, allocates the runtime state, queues the
open-request event downstream and waits with bound
`OPEN_CHANNEL_TIMEOUT_MSEC` = 5000 ms on the channel-opened signal:
success moves the slot to `CHAN_OPEN`; a timed-out wait returns
`X_LINK_TIMEOUT` and an interrupted wait `X_LINK_ERROR`, in both failure
cases tearing the runtime state down and leaving the slot `CHAN_CLOSED`. -/
theorem C3_open_closed (cap reqSize reqTimeout : Nat) (reqMode : xlink_opmode)
    (slot : channel)
    (hst : slot.status = chan_status.CHAN_CLOSED)
    (hoc : slot.opchan = none) :
    tx_open_channel_req cap slot reqSize reqTimeout reqMode true
        WaitOutcome.succeeded
      = (X_LINK_SUCCESS,
         { slot with
           status := chan_status.CHAN_OPEN
           size := reqSize
           timeout := reqTimeout
           mode := reqMode
           opchan := some (init_open_channel cap) },
         true, some OPEN_CHANNEL_TIMEOUT_MSEC) ∧
    tx_open_channel_req cap slot reqSize reqTimeout reqMode true
        WaitOutcome.timedOut
      = (X_LINK_TIMEOUT,
         { slot with
           size := reqSize
           timeout := reqTimeout
           mode := reqMode
           opchan := none },
         true, some OPEN_CHANNEL_TIMEOUT_MSEC) ∧
    tx_open_channel_req cap slot reqSize reqTimeout reqMode true
        WaitOutcome.interrupted
      = (X_LINK_ERROR,
         { slot with
           size := reqSize
           timeout := reqTimeout
           mode := reqMode
           opchan := none },
         true, some OPEN_CHANNEL_TIMEOUT_MSEC) ∧
    ({ slot with
       size := reqSize
       timeout := reqTimeout
       mode := reqMode
       opchan := none } : channel).status = chan_status.CHAN_CLOSED ∧
    OPEN_CHANNEL_TIMEOUT_MSEC = 5000 := by
  refine ⟨?_, ?_, ?_, by simp [hst], rfl⟩ <;>
    simp [tx_open_channel_req, hst, multiplexer_open_channel, hoc]

/-- C3 witness: `slot_closed` opened with size 1024, timeout 300, mode
`RXB_TXB`, under each of the three wait outcomes. -/
theorem C3_open_closed_witness :
    slot_closed.status = chan_status.CHAN_CLOSED ∧
    slot_closed.opchan = none ∧
    (tx_open_channel_req 4 slot_closed 1024 300 xlink_opmode.RXB_TXB true
        WaitOutcome.succeeded
      = (X_LINK_SUCCESS,
         { slot_closed with
           status := chan_status.CHAN_OPEN
           size := 1024
           timeout := 300
           mode := xlink_opmode.RXB_TXB
           opchan := some (init_open_channel 4) },
         true, some OPEN_CHANNEL_TIMEOUT_MSEC) ∧
     tx_open_channel_req 4 slot_closed 1024 300 xlink_opmode.RXB_TXB true
        WaitOutcome.timedOut
      = (X_LINK_TIMEOUT,
         { slot_closed with
           size := 1024
           timeout := 300
           mode := xlink_opmode.RXB_TXB
           opchan := none },
         true, some OPEN_CHANNEL_TIMEOUT_MSEC) ∧
     tx_open_channel_req 4 slot_closed 1024 300 xlink_opmode.RXB_TXB true
        WaitOutcome.interrupted
      = (X_LINK_ERROR,
         { slot_closed with
           size := 1024
           timeout := 300
           mode := xlink_opmode.RXB_TXB
           opchan := none },
         true, some OPEN_CHANNEL_TIMEOUT_MSEC) ∧
     ({ slot_closed with
        size := 1024
        timeout := 300
        mode := xlink_opmode.RXB_TXB
        opchan := none } : channel).status = chan_status.CHAN_CLOSED ∧
     OPEN_CHANNEL_TIMEOUT_MSEC = 5000) :=
  ⟨by decide, by decide,
    C3_open_closed 4 1024 300 xlink_opmode.RXB_TXB slot_closed
      (by decide) (by decide)⟩

theorem release_head_rx (oc : open_channel) (x : packet) (xs : List packet)
    (h : oc.rx_queue.pkts = x :: xs) :
    release_packet_from_channel oc QSel.rx none
      = (X_LINK_SUCCESS,
         { oc with
           rx_queue := { oc.rx_queue with pkts := xs, count := oc.rx_queue.count - 1 }
           rx_fill_level := oc.rx_fill_level - (x.length : Int) },
         some x) := by
  simp [release_packet_from_channel, getQ, setQ, h]

theorem release_head_tx (oc : open_channel) (x : packet) (xs : List packet)
    (h : oc.tx_queue.pkts = x :: xs) :
    release_packet_from_channel oc QSel.tx none
      = (X_LINK_SUCCESS,
         { oc with
           tx_queue := { oc.tx_queue with pkts := xs, count := oc.tx_queue.count - 1 }
           rx_fill_level := oc.rx_fill_level - (x.length : Int) },
         some x) := by
  simp [release_packet_from_channel, getQ, setQ, h]

theorem drainAux_rx (l : List packet) : ∀ oc : open_channel,
    oc.rx_queue.pkts = l →
    (drainAux QSel.rx l.length oc).2 = l ∧
    ((drainAux QSel.rx l.length oc).1).rx_queue.pkts = [] ∧
    ((drainAux QSel.rx l.length oc).1).tx_queue = oc.tx_queue := by
  induction l with
  | nil =>
    intro oc h
    simp [drainAux, h]
  | cons x xs ih =>
    intro oc h
    have hstep : drainAux QSel.rx (x :: xs).length oc
        = ((drainAux QSel.rx xs.length
              { oc with
                rx_queue := { oc.rx_queue with pkts := xs, count := oc.rx_queue.count - 1 }
                rx_fill_level := oc.rx_fill_level - (x.length : Int) }).1,
           x :: (drainAux QSel.rx xs.length
              { oc with
                rx_queue := { oc.rx_queue with pkts := xs, count := oc.rx_queue.count - 1 }
                rx_fill_level := oc.rx_fill_level - (x.length : Int) }).2) := by
      simp [drainAux, release_head_rx oc x xs h]
    obtain ⟨ha, hb, hc⟩ := ih
      { oc with
        rx_queue := { oc.rx_queue with pkts := xs, count := oc.rx_queue.count - 1 }
        rx_fill_level := oc.rx_fill_level - (x.length : Int) } rfl
    rw [hstep]
    exact ⟨by rw [ha], hb, hc⟩

theorem drainAux_tx (l : List packet) : ∀ oc : open_channel,
    oc.tx_queue.pkts = l →
    (drainAux QSel.tx l.length oc).2 = l := by
  induction l with
  | nil =>
    intro oc h
    simp [drainAux, h]
  | cons x xs ih =>
    intro oc h
    have hstep : drainAux QSel.tx (x :: xs).length oc
        = ((drainAux QSel.tx xs.length
              { oc with
                tx_queue := { oc.tx_queue with pkts := xs, count := oc.tx_queue.count - 1 }
                rx_fill_level := oc.rx_fill_level - (x.length : Int) }).1,
           x :: (drainAux QSel.tx xs.length
              { oc with
                tx_queue := { oc.tx_queue with pkts := xs, count := oc.tx_queue.count - 1 }
                rx_fill_level := oc.rx_fill_level - (x.length : Int) }).2) := by
      simp [drainAux, release_head_tx oc x xs h]
    have ha := ih
      { oc with
        tx_queue := { oc.tx_queue with pkts := xs, count := oc.tx_queue.count - 1 }
        rx_fill_level := oc.rx_fill_level - (x.length : Int) } rfl
    rw [hstep]
    simp [ha]

theorem multiplexer_close_channel_eq (oc : open_channel) :
    multiplexer_close_channel oc
      = (X_LINK_SUCCESS, oc.rx_queue.pkts ++ oc.tx_queue.pkts) := by
  obtain ⟨ha, hb, hc⟩ := drainAux_rx oc.rx_queue.pkts oc rfl
  have hd := drainAux_tx
    ((drainAux QSel.rx oc.rx_queue.pkts.length oc).1).tx_queue.pkts
    ((drainAux QSel.rx oc.rx_queue.pkts.length oc).1) rfl
  rw [hc] at hd
  simp only [multiplexer_close_channel]
  rw [ha, hc, hd]

/-- C4: closing a `CHAN_OPEN` slot deallocates exactly the packets queued in
its rx and tx queues (rx first), releases the runtime state and moves the
slot to `CHAN_CLOSED`; on the closed slot a write request and a read request
both return `X_LINK_COMMUNICATION_FAIL`; and a close request on any slot
whose status is not `CHAN_OPEN` fails with `X_LINK_ERROR` leaving it
unchanged. -/
theorem C4_close_drains (slot slot2 : channel) (oc : open_channel)
    (cap size : Nat) (env : List (WaitOutcome × open_channel)) (w : WaitOutcome)
    (hst : slot.status = chan_status.CHAN_OPEN)
    (hoc : slot.opchan = some oc)
    (hne : slot2.status ≠ chan_status.CHAN_OPEN) :
    tx_close_channel_req slot
      = (X_LINK_SUCCESS,
         { slot with status := chan_status.CHAN_CLOSED, opchan := none },
         oc.rx_queue.pkts ++ oc.tx_queue.pkts) ∧
    tx_write_req cap
        { slot with status := chan_status.CHAN_CLOSED, opchan := none } size env
      = some (X_LINK_COMMUNICATION_FAIL,
          { slot with status := chan_status.CHAN_CLOSED, opchan := none }, 0) ∧
    tx_read_req { slot with status := chan_status.CHAN_CLOSED, opchan := none } w
      = (X_LINK_COMMUNICATION_FAIL, none) ∧
    tx_close_channel_req slot2 = (X_LINK_ERROR, slot2, []) := by
  refine ⟨?_, ?_, ?_, ?_⟩
  · simp [tx_close_channel_req, hst, hoc, multiplexer_close_channel_eq]
  · simp [tx_write_req]
  · simp [tx_read_req]
  · simp [tx_close_channel_req, hne]

/-- C4 witness: `slot_open_pkts` (one 7-byte rx packet at address 9, one
3-byte tx packet at address 11) is closed, freeing both packets; write and
read on the closed slot fail with `X_LINK_COMMUNICATION_FAIL`; closing
`slot_closed` fails with `X_LINK_ERROR`. -/
theorem C4_close_drains_witness :
    slot_open_pkts.status = chan_status.CHAN_OPEN ∧
    slot_open_pkts.opchan = some oc_with_pkts ∧
    slot_closed.status ≠ chan_status.CHAN_OPEN ∧
    (tx_close_channel_req slot_open_pkts
      = (X_LINK_SUCCESS,
         { slot_open_pkts with status := chan_status.CHAN_CLOSED, opchan := none },
         oc_with_pkts.rx_queue.pkts ++ oc_with_pkts.tx_queue.pkts) ∧
     tx_write_req 10000
        { slot_open_pkts with status := chan_status.CHAN_CLOSED, opchan := none } 64 []
      = some (X_LINK_COMMUNICATION_FAIL,
          { slot_open_pkts with status := chan_status.CHAN_CLOSED, opchan := none }, 0) ∧
     tx_read_req
        { slot_open_pkts with status := chan_status.CHAN_CLOSED, opchan := none }
        WaitOutcome.succeeded
      = (X_LINK_COMMUNICATION_FAIL, none) ∧
     tx_close_channel_req slot_closed = (X_LINK_ERROR, slot_closed, [])) :=
  ⟨by decide, by decide, by decide,
    C4_close_drains slot_open_pkts slot_closed oc_with_pkts 10000 64 []
      WaitOutcome.succeeded (by decide) (by decide) (by decide)⟩

theorem findFirst_remove_qsum (p : packet → Bool) :
    ∀ (l : List packet) (pkt : packet), findFirst p l = some pkt →
      qsum (removeFirst p l) + pkt.length = qsum l := by
  intro l
  induction l with
  | nil => intro pkt h; simp [findFirst] at h
  | cons x xs ih =>
    intro pkt h
    by_cases hp : p x
    · simp [findFirst, hp] at h
      subst h
      simp [removeFirst, hp, qsum]
      omega
    · simp [findFirst, hp] at h
      have := ih pkt h
      simp [removeFirst, hp, qsum] at this ⊢
      omega

theorem release_rx_none (oc : open_channel) (addr : Option Nat)
    (rc : XLinkError) (oc2 : open_channel)
    (h : release_packet_from_channel oc QSel.rx addr = (rc, oc2, none)) :
    oc2 = oc := by
  simp only [release_packet_from_channel] at h
  split at h <;> simp_all

theorem release_rx_some (oc : open_channel) (addr : Option Nat)
    (rc : XLinkError) (oc2 : open_channel) (pkt : packet)
    (h : release_packet_from_channel oc QSel.rx addr = (rc, oc2, some pkt)) :
    rc = X_LINK_SUCCESS ∧
    oc2.rx_fill_level = oc.rx_fill_level - (pkt.length : Int) ∧
    qsum oc2.rx_queue.pkts + pkt.length = qsum oc.rx_queue.pkts ∧
    oc2.tx_queue = oc.tx_queue := by
  cases addr with
  | none =>
    cases hq : oc.rx_queue.pkts with
    | nil => simp [release_packet_from_channel, getQ, hq] at h
    | cons x xs =>
      rw [release_head_rx oc x xs hq] at h
      simp only [Prod.mk.injEq, Option.some.injEq] at h
      obtain ⟨h1, h2, h3⟩ := h
      subst h1
      subst h3
      subst h2
      refine ⟨rfl, rfl, ?_, rfl⟩
      simp [qsum]
      omega
  | some a =>
    cases hf : findFirst (fun p => p.data = a) oc.rx_queue.pkts with
    | none => simp [release_packet_from_channel, getQ, hf] at h
    | some pkt2 =>
      have hqq := findFirst_remove_qsum (fun p => p.data = a) oc.rx_queue.pkts pkt2 hf
      simp only [release_packet_from_channel, getQ, hf, Prod.mk.injEq,
        Option.some.injEq] at h
      obtain ⟨h1, h2, h3⟩ := h
      subst h1
      subst h3
      subst h2
      refine ⟨rfl, rfl, ?_, rfl⟩
      simpa [setQ] using hqq

theorem muxStep_preserves (st : Option open_channel) (op : MuxOp)
    (h : stInv st) : stInv (muxStep st op) := by
  cases st with
  | none => cases op <;> simp [muxStep, stInv]
  | some oc =>
    obtain ⟨hfill, htx⟩ := h
    cases op with
    | enqueue buffer size allocOk =>
      simp only [muxStep, stInv]
      by_cases hlt : oc.rx_queue.count < oc.rx_queue.capacity
      · cases allocOk with
        | false =>
          simp [add_packet_to_channel, getQ, hlt, rxInv, hfill, htx]
        | true =>
          have hadd : add_packet_to_channel oc QSel.rx buffer size true
              = (X_LINK_SUCCESS,
                 { oc with
                   rx_queue := { oc.rx_queue with
                     pkts := oc.rx_queue.pkts ++ [{ data := buffer, length := size }],
                     count := oc.rx_queue.count + 1 }
                   rx_fill_level := oc.rx_fill_level + (size : Int) }) := by
            simp [add_packet_to_channel, getQ, setQ, hlt]
          rw [hadd]
          refine ⟨?_, htx⟩
          simp only [qsum_append, hfill]
          simp [qsum]
      · simp [add_packet_to_channel, getQ, hlt, rxInv, hfill, htx]
    | release addr =>
      simp only [muxStep, stInv]
      rcases hr : release_packet_from_channel oc QSel.rx addr with ⟨rc, oc2, freed⟩
      show rxInv oc2
      cases freed with
      | none =>
        have := release_rx_none oc addr rc oc2 hr
        subst this
        exact ⟨hfill, htx⟩
      | some pkt =>
        obtain ⟨hrc, hfl, hq, htxeq⟩ := release_rx_some oc addr rc oc2 pkt hr
        refine ⟨?_, by rw [htxeq]; exact htx⟩
        rw [hfl, hfill]
        omega
    | closeDrain => simp [muxStep, stInv]

theorem foldl_muxStep_inv (ops : List MuxOp) : ∀ st : Option open_channel,
    stInv st → stInv (ops.foldl muxStep st) := by
  induction ops with
  | nil => intro st h; exact h
  | cons op rest ih => intro st h; exact ih _ (muxStep_preserves st op h)

/-- C1: after every sequence of multiplexer operations on a channel
(enqueues of received packets, packet releases, close-drain) the live
channel's `rx_fill_level` equals the sum of the lengths of the packets in
its rx queue; and a release that frees a packet decreases `rx_fill_level`
by exactly that packet's length without it ever dropping below zero. -/
theorem C1_rx_fill_level_invariant (cap : Nat) (ops : List MuxOp)
    (oc oc2 : open_channel) (addr : Option Nat) (rc : XLinkError) (pkt : packet)
    (hrun : muxRun cap ops = some oc) :
    oc.rx_fill_level = (qsum oc.rx_queue.pkts : Int) ∧
    (release_packet_from_channel oc QSel.rx addr = (rc, oc2, some pkt) →
      oc2.rx_fill_level = oc.rx_fill_level - (pkt.length : Int) ∧
      0 ≤ oc2.rx_fill_level) := by
  have h0 : stInv (some (init_open_channel cap)) := by
    simp [stInv, rxInv, init_open_channel, qsum]
  have hinv : stInv (muxRun cap ops) := foldl_muxStep_inv ops _ h0
  rw [hrun] at hinv
  obtain ⟨hfill, htx⟩ := hinv
  refine ⟨hfill, ?_⟩
  intro h
  obtain ⟨hrc, hfl, hq, htxeq⟩ := release_rx_some oc addr rc oc2 pkt h
  refine ⟨hfl, ?_⟩
  rw [hfl, hfill]
  omega

/-- C1 witness: two enqueues (5 bytes at address 1, 7 bytes at address 2)
reach `oc_run` with fill level 12 = 5 + 7; releasing the packet at
address 1 yields `oc_run2` with fill level 7 = 12 - 5 ≥ 0. -/
theorem C1_rx_fill_level_invariant_witness :
    muxRun 4 [MuxOp.enqueue 1 5 true, MuxOp.enqueue 2 7 true] = some oc_run ∧
    (oc_run.rx_fill_level = (qsum oc_run.rx_queue.pkts : Int) ∧
     (release_packet_from_channel oc_run QSel.rx (some 1)
         = (X_LINK_SUCCESS, oc_run2, some ⟨1, 5⟩) →
       oc_run2.rx_fill_level = oc_run.rx_fill_level - ((5 : Nat) : Int) ∧
       0 ≤ oc_run2.rx_fill_level)) :=
  ⟨by decide,
    C1_rx_fill_level_invariant 4 [MuxOp.enqueue 1 5 true, MuxOp.enqueue 2 7 true]
      oc_run oc_run2 (some 1) X_LINK_SUCCESS ⟨1, 5⟩ (by decide)⟩
